import Mathlib

/-!
Shallow embedding of the numeric core of the `ping-a-ding-a-ling`
repository: the session analyzer (`analysis.service.ts`), the stateful
deviation detector (`deviation.service.ts`), and the rolling-window
statistics of `PingService` (ping service source file).

Numbers: JavaScript numbers are modelled as `ℚ` (timestamps, which the
source treats as integer milliseconds, as `ℤ`).  The one exception is
`Math.sqrt` in the standard-deviation computation, whose value is not
rational; see `calculateStats` below.
-/

/-- `PingResult` from the shared types: timestamp in Unix ms, latency in
ms with `null` (here `none`) denoting loss, and a sequence number. -/
structure PingResult where
  timestamp : ℤ
  latency : Option ℚ
  seq : ℤ
deriving Repr, DecidableEq

/-- JavaScript `sorted[i] || fallback`: the element at index `i` if it is
present and non-zero (0 is falsy, `undefined` is falsy), else `fallback`. -/
def jsIndexOr (l : List ℚ) (i : ℕ) (fallback : ℚ) : ℚ :=
  match l.get? i with
  | some v => if v = 0 then fallback else v
  | none => fallback

/-- `Math.floor(n * p)` for a list length `n` and percentile fraction `p`. -/
def pctIdx (n : ℕ) (p : ℚ) : ℕ :=
  (⌊(n : ℚ) * p⌋).toNat

/-- The even/odd median pattern used throughout the source:
`n % 2 === 0 ? (sorted[n/2-1] + sorted[n/2]) / 2 : sorted[Math.floor(n/2)]`. -/
def medianOfSorted (sorted : List ℚ) : ℚ :=
  let n := sorted.length
  if n % 2 = 0 then (sorted.getD (n / 2 - 1) 0 + sorted.getD (n / 2) 0) / 2
  else sorted.getD (n / 2) 0

/-- Ascending sort of rationals (`.sort((a, b) => a - b)` in the source).
`Array.prototype.sort` is a stable sort, and the result of a stable sort
under a total preorder is unique, so insertion sort (stable) is a faithful
model of it. -/
def sortAsc (l : List ℚ) : List ℚ :=
  List.insertionSort (· ≤ ·) l

/-- `[...pingResults].sort((a, b) => a.timestamp - b.timestamp)` (stable,
see `sortAsc`). -/
def sortByTimestamp (rs : List PingResult) : List PingResult :=
  List.insertionSort (fun a b => a.timestamp ≤ b.timestamp) rs

/-- `THRESHOLD_LEVELS = [10, 20, 50, 100]` (ms). -/
def THRESHOLD_LEVELS : List ℚ := [10, 20, 50, 100]

/-- `BURST_GAP_MS = 5000`: gap in ms to consider a new burst. -/
def BURST_GAP_MS : ℤ := 5000

/-- `SPIKE_THRESHOLD_MS = 10`: spike threshold for burst detection (ms). -/
def SPIKE_THRESHOLD_MS : ℚ := 10

structure TimingMetrics where
  spanSeconds : ℚ
  sampleCount : ℕ
  samplingIntervalMean : ℚ
  samplingIntervalMedian : ℚ
  samplingIntervalP95 : ℚ
deriving Repr, DecidableEq

/-- The pairwise inter-sample intervals in seconds:
`(sortedResults[i].timestamp - sortedResults[i-1].timestamp) / 1000`. -/
def interSampleIntervals (sortedResults : List PingResult) : List ℚ :=
  (sortedResults.zip sortedResults.tail).map
    (fun ab => ((ab.2.timestamp - ab.1.timestamp : ℤ) : ℚ) / 1000)

/-- `computeTimingMetrics` of `analysis.service.ts`. -/
def computeTimingMetrics (sortedResults : List PingResult) : TimingMetrics :=
  if sortedResults.length < 2 then
    { spanSeconds := 0
      sampleCount := sortedResults.length
      samplingIntervalMean := 0
      samplingIntervalMedian := 0
      samplingIntervalP95 := 0 }
  else
    let firstTimestamp := (sortedResults.head?.map (·.timestamp)).getD 0
    let lastTimestamp := (sortedResults.getLast?.map (·.timestamp)).getD 0
    let spanSeconds := ((lastTimestamp - firstTimestamp : ℤ) : ℚ) / 1000
    let intervals := interSampleIntervals sortedResults
    let sortedIntervals := sortAsc intervals
    let n := sortedIntervals.length
    { spanSeconds
      sampleCount := sortedResults.length
      samplingIntervalMean := intervals.sum / n
      samplingIntervalMedian := medianOfSorted sortedIntervals
      samplingIntervalP95 := jsIndexOr sortedIntervals (pctIdx n (95 / 100)) 0 }

structure LatencyStats where
  latencyMin : ℚ
  latencyMean : ℚ
  latencyMedian : ℚ
  latencyP95 : ℚ
  latencyP99 : ℚ
  latencyMax : ℚ
  /-- The source stores `Math.sqrt` of the mean squared deviation; the square
  root of a rational is in general irrational, so the model stores the mean
  squared deviation itself (the square of the source's `latencyStdDev`).
  `sqrt` is injective and monotone on nonnegatives, so equality and order
  facts transfer; no claim reads this field. -/
  latencyStdDevSq : ℚ
deriving Repr, DecidableEq

/-- `computeLatencyStats` of `analysis.service.ts`. -/
def computeLatencyStats (latencies : List ℚ) : LatencyStats :=
  if latencies.length = 0 then
    { latencyMin := 0, latencyMean := 0, latencyMedian := 0
      latencyP95 := 0, latencyP99 := 0, latencyMax := 0, latencyStdDevSq := 0 }
  else
    let sorted := sortAsc latencies
    let n := sorted.length
    let sum := sorted.sum
    let mean := sum / n
    let squaredDiffs := sorted.map (fun v => (v - mean) ^ 2)
    { latencyMin := sorted.getD 0 0
      latencyMean := mean
      latencyMedian := medianOfSorted sorted
      latencyP95 := jsIndexOr sorted (pctIdx n (95 / 100)) (sorted.getD (n - 1) 0)
      latencyP99 := jsIndexOr sorted (pctIdx n (99 / 100)) (sorted.getD (n - 1) 0)
      latencyMax := sorted.getD (n - 1) 0
      latencyStdDevSq := squaredDiffs.sum / n }

structure ThresholdCount where
  thresholdMs : ℚ
  count : ℕ
  percentage : ℚ
deriving Repr, DecidableEq

/-- `computeThresholdCounts` of `analysis.service.ts`. -/
def computeThresholdCounts (latencies : List ℚ) : List ThresholdCount :=
  let total := latencies.length
  if total = 0 then
    THRESHOLD_LEVELS.map (fun t => { thresholdMs := t, count := 0, percentage := 0 })
  else
    THRESHOLD_LEVELS.map (fun threshold =>
      let count := (latencies.filter (fun l => threshold ≤ l)).length
      { thresholdMs := threshold
        count
        percentage := ((count : ℚ) / total) * 100 })

structure LatencyBurst where
  index : ℕ
  startTimestamp : ℤ
  endTimestamp : ℤ
  sampleCount : ℕ
  maxLatency : ℚ
  meanLatency : ℚ
deriving Repr, DecidableEq

/-- `createBurst` of `analysis.service.ts` (call sites always pass a
non-empty `samples` list; the `getD 0` defaults are never reached). -/
def createBurst (index : ℕ) (samples : List PingResult) : LatencyBurst :=
  let latencies := samples.filterMap (·.latency)
  { index
    startTimestamp := (samples.head?.map (·.timestamp)).getD 0
    endTimestamp := (samples.getLast?.map (·.timestamp)).getD 0
    sampleCount := samples.length
    maxLatency := (latencies.max?).getD 0
    meanLatency := if 0 < latencies.length then latencies.sum / latencies.length else 0 }

/-- Whether a sample is a "spike sample" for burst detection:
`p.latency === null || p.latency >= SPIKE_THRESHOLD_MS`. -/
def isSpikeSample (p : PingResult) : Bool :=
  match p.latency with
  | none => true
  | some l => SPIKE_THRESHOLD_MS ≤ l

/-- The grouping loop of `computeBurstAnalysis`: walk the remaining spike
samples, extending the current burst when the gap to the previous spike
sample is `≤ BURST_GAP_MS` and starting a new group otherwise.  `current`
is kept in reverse arrival order. -/
def burstGroupsAux (prev : PingResult) (current : List PingResult) :
    List PingResult → List (List PingResult)
  | [] => [current.reverse]
  | s :: rest =>
    if s.timestamp - prev.timestamp ≤ BURST_GAP_MS then
      burstGroupsAux s (s :: current) rest
    else
      current.reverse :: burstGroupsAux s [s] rest

/-- Partition of the spike samples into bursts, in order. -/
def burstGroups : List PingResult → List (List PingResult)
  | [] => []
  | s :: rest => burstGroupsAux s [s] rest

structure BurstAnalysis where
  burstCount : ℕ
  burstSizeMedian : ℚ
  burstSizeMax : ℚ
  interBurstIntervalMedian : Option ℚ
  interBurstIntervalP95 : Option ℚ
  bursts : List LatencyBurst
deriving Repr, DecidableEq

/-- `computeBurstAnalysis` of `analysis.service.ts`. -/
def computeBurstAnalysis (sortedResults : List PingResult) : BurstAnalysis :=
  let spikeSamples := sortedResults.filter isSpikeSample
  if spikeSamples.length = 0 then
    { burstCount := 0, burstSizeMedian := 0, burstSizeMax := 0
      interBurstIntervalMedian := none, interBurstIntervalP95 := none
      bursts := [] }
  else
    let bursts := (burstGroups spikeSamples).enum.map (fun ig => createBurst ig.1 ig.2)
    let burstSizes : List ℚ := bursts.map (fun b => (b.sampleCount : ℚ))
    let sortedSizes := sortAsc burstSizes
    let n := sortedSizes.length
    let interPair : Option ℚ × Option ℚ :=
      if 1 < bursts.length then
        let intervals := (bursts.zip bursts.tail).map
          (fun bb => ((bb.2.startTimestamp - bb.1.endTimestamp : ℤ) : ℚ) / 1000)
        let sortedIntervals := sortAsc intervals
        let m := sortedIntervals.length
        (some (medianOfSorted sortedIntervals),
         some (jsIndexOr sortedIntervals (pctIdx m (95 / 100))
                (sortedIntervals.getD (m - 1) 0)))
      else (none, none)
    { burstCount := bursts.length
      burstSizeMedian := medianOfSorted sortedSizes
      burstSizeMax := sortedSizes.getD (n - 1) 0
      interBurstIntervalMedian := interPair.1
      interBurstIntervalP95 := interPair.2
      bursts := bursts }

inductive QualityGrade where
  | A | B | C | D | F
deriving Repr, DecidableEq

/-- `Number.prototype.toFixed(1)` on a nonnegative number, modelled as
round-half-up on the exact rational (IEEE-754 binary artifacts at exact
decimal halfway points are not modelled; no claim depends on the digits). -/
def ratToFixed1 (x : ℚ) : String :=
  let t : ℤ := ⌊x * 10 + 1 / 2⌋
  if t < 0 then
    "-" ++ toString ((-t).toNat / 10) ++ "." ++ toString ((-t).toNat % 10)
  else
    toString (t.toNat / 10) ++ "." ++ toString (t.toNat % 10)

structure QualityAssessment where
  qualityGrade : QualityGrade
  qualitySummary : String
deriving Repr, DecidableEq

/-- `thresholds.find((t) => t.thresholdMs === k)?.percentage || 0`. -/
def pctAt (thresholds : List ThresholdCount) (k : ℚ) : ℚ :=
  match thresholds.find? (fun t => t.thresholdMs = k) with
  | some t => t.percentage
  | none => 0

/-- `assessQuality` of `analysis.service.ts`.  (`?.percentage || 0` maps a
found percentage of 0 to 0 and a missing entry to 0, exactly `pctAt`.) -/
def assessQuality (latencyStats : LatencyStats) (thresholds : List ThresholdCount)
    (sampleCount : ℕ) : QualityAssessment :=
  if sampleCount = 0 then
    { qualityGrade := QualityGrade.F
      qualitySummary := "No data available for analysis." }
  else
    let pct10ms := pctAt thresholds 10
    let pct20ms := pctAt thresholds 20
    let pct50ms := pctAt thresholds 50
    if pct10ms < 1 ∧ latencyStats.latencyP95 < 10 then
      { qualityGrade := QualityGrade.A
        qualitySummary := "Excellent for game streaming. " ++ ratToFixed1 (100 - pct10ms) ++
          "% of samples under 10ms. P95: " ++ ratToFixed1 latencyStats.latencyP95 ++ "ms." }
    else if pct10ms < 3 ∧ pct20ms < 1 then
      { qualityGrade := QualityGrade.B
        qualitySummary := "Good for most streaming. " ++ ratToFixed1 (100 - pct10ms) ++
          "% of samples under 10ms. P95: " ++ ratToFixed1 latencyStats.latencyP95 ++ "ms." }
    else if pct10ms < 5 ∨ (pct20ms < 1 ∧ pct10ms < 10) then
      { qualityGrade := QualityGrade.C
        qualitySummary := "Acceptable with occasional hiccups. " ++ ratToFixed1 pct10ms ++
          "% of samples ≥10ms. P95: " ++ ratToFixed1 latencyStats.latencyP95 ++ "ms." }
    else if pct10ms < 10 ∨ pct20ms < 3 then
      { qualityGrade := QualityGrade.D
        qualitySummary := "Noticeable latency issues. " ++ ratToFixed1 pct10ms ++
          "% of samples ≥10ms, " ++ ratToFixed1 pct20ms ++ "% ≥20ms. May cause stutter." }
    else
      { qualityGrade := QualityGrade.F
        qualitySummary := "Poor for streaming. " ++ ratToFixed1 pct10ms ++
          "% of samples ≥10ms, " ++ ratToFixed1 pct50ms ++ "% ≥50ms. Expect frequent stuttering." }

structure SessionAnalysis where
  sessionId : String
  computedAt : ℤ
  spanSeconds : ℚ
  sampleCount : ℕ
  samplingIntervalMean : ℚ
  samplingIntervalMedian : ℚ
  samplingIntervalP95 : ℚ
  latencyMin : ℚ
  latencyMean : ℚ
  latencyMedian : ℚ
  latencyP95 : ℚ
  latencyP99 : ℚ
  latencyMax : ℚ
  latencyStdDevSq : ℚ
  thresholds : List ThresholdCount
  burstCount : ℕ
  burstSizeMedian : ℚ
  burstSizeMax : ℚ
  interBurstIntervalMedian : Option ℚ
  interBurstIntervalP95 : Option ℚ
  bursts : List LatencyBurst
  qualityGrade : QualityGrade
  qualitySummary : String
deriving Repr, DecidableEq

/-- `computeSessionAnalysis` of `analysis.service.ts`.  The source reads the
wall clock (`Date.now()`) for the `computedAt` field; the clock reading is an
explicit input here. -/
def computeSessionAnalysis (computedAt : ℤ) (sessionId : String)
    (pingResults : List PingResult) : SessionAnalysis :=
  let successfulPings := pingResults.filter (fun p => p.latency ≠ none)
  let latencies := successfulPings.filterMap (·.latency)
  let sortedResults := sortByTimestamp pingResults
  let timing := computeTimingMetrics sortedResults
  let latencyStats := computeLatencyStats latencies
  let thresholds := computeThresholdCounts latencies
  let burstAnalysis := computeBurstAnalysis sortedResults
  let quality := assessQuality latencyStats thresholds timing.sampleCount
  { sessionId
    computedAt
    spanSeconds := timing.spanSeconds
    sampleCount := timing.sampleCount
    samplingIntervalMean := timing.samplingIntervalMean
    samplingIntervalMedian := timing.samplingIntervalMedian
    samplingIntervalP95 := timing.samplingIntervalP95
    latencyMin := latencyStats.latencyMin
    latencyMean := latencyStats.latencyMean
    latencyMedian := latencyStats.latencyMedian
    latencyP95 := latencyStats.latencyP95
    latencyP99 := latencyStats.latencyP99
    latencyMax := latencyStats.latencyMax
    latencyStdDevSq := latencyStats.latencyStdDevSq
    thresholds
    burstCount := burstAnalysis.burstCount
    burstSizeMedian := burstAnalysis.burstSizeMedian
    burstSizeMax := burstAnalysis.burstSizeMax
    interBurstIntervalMedian := burstAnalysis.interBurstIntervalMedian
    interBurstIntervalP95 := burstAnalysis.interBurstIntervalP95
    bursts := burstAnalysis.bursts
    qualityGrade := quality.qualityGrade
    qualitySummary := quality.qualitySummary }

/-- `SessionSettings` from the shared types.  `detectionMethod` is a plain
runtime string (the TypeScript type narrows it to the three literals
`"iqr" | "zscore" | "manual"`, but the detector's `switch` has no default
branch, so any other runtime value falls through). -/
structure SessionSettings where
  target : String
  interval : ℚ
  detectionMethod : String
  iqrMultiplier : ℚ
  zScoreThreshold : ℚ
  manualLatencyThreshold : Option ℚ
  manualJitterThreshold : Option ℚ
  rollingWindowSize : ℕ
deriving Repr, DecidableEq

inductive DeviationType where
  | latency_spike | packet_loss | jitter
deriving Repr, DecidableEq

/-- The string the source interpolates into event ids for each type. -/
def DeviationType.str : DeviationType → String
  | .latency_spike => "latency_spike"
  | .packet_loss => "packet_loss"
  | .jitter => "jitter"

structure DeviationEvent where
  id : String
  timestamp : ℤ
  type : DeviationType
  value : ℚ
  threshold : ℚ
deriving Repr, DecidableEq

/-- `RollingStats` from the shared types.  The detector consumes `stdDev`
as an opaque number; only `calculateStats` produces it (via `Math.sqrt`,
see there). -/
structure RollingStats where
  mean : ℚ
  median : ℚ
  stdDev : ℚ
  min : ℚ
  max : ℚ
  p95 : ℚ
  p99 : ℚ
  q1 : ℚ
  q3 : ℚ
  iqr : ℚ
  jitter : ℚ
  packetLossRate : ℚ
  sampleCount : ℕ
deriving Repr, DecidableEq

/-- The private mutable fields of the `DeviationDetector` class. -/
structure DetectorState where
  settings : SessionSettings
  lastLatency : Option ℚ
  deviationCount : ℕ
deriving Repr, DecidableEq

/-- `createEvent`: builds the event `{type}-{timestamp}-{count}` after
incrementing the detector's running counter; returns the event together
with the new counter value. -/
def createEvent (type : DeviationType) (value threshold : ℚ) (timestamp : ℤ)
    (count : ℕ) : DeviationEvent × ℕ :=
  let c := count + 1
  ({ id := type.str ++ "-" ++ toString timestamp ++ "-" ++ toString c
     timestamp
     type
     value
     threshold }, c)

/-- `detectLatencySpike` of `deviation.service.ts`: the `switch` on
`settings.detectionMethod`, threading the event counter. -/
def detectLatencySpike (settings : SessionSettings) (latency : ℚ)
    (stats : RollingStats) (timestamp : ℤ) (count : ℕ) :
    Option (DeviationEvent × ℕ) :=
  if settings.detectionMethod = "iqr" then
    let threshold := stats.q3 + settings.iqrMultiplier * stats.iqr
    let effectiveThreshold := max threshold (stats.median + 1)
    if effectiveThreshold < latency then
      some (createEvent .latency_spike latency effectiveThreshold timestamp count)
    else none
  else if settings.detectionMethod = "zscore" then
    if stats.stdDev = 0 then none
    else
      let zScore := (latency - stats.mean) / stats.stdDev
      if settings.zScoreThreshold < zScore then
        let threshold := stats.mean + settings.zScoreThreshold * stats.stdDev
        some (createEvent .latency_spike latency threshold timestamp count)
      else none
  else if settings.detectionMethod = "manual" then
    match settings.manualLatencyThreshold with
    | some threshold =>
      if threshold < latency then
        some (createEvent .latency_spike latency threshold timestamp count)
      else none
    | none => none
  else none

/-- `detectJitterSpike` of `deviation.service.ts`. -/
def detectJitterSpike (settings : SessionSettings) (lastLatency : Option ℚ)
    (latency : ℚ) (stats : RollingStats) (timestamp : ℤ) (count : ℕ) :
    Option (DeviationEvent × ℕ) :=
  match lastLatency with
  | none => none
  | some last =>
    let delta := |latency - last|
    let threshold :=
      match settings.manualJitterThreshold with
      | some t => t
      | none => max (stats.jitter * 2) 2
    if threshold < delta then
      some (createEvent .jitter delta threshold timestamp count)
    else none

/-- `DeviationDetector.detect` of `deviation.service.ts`, as a state
transition returning the updated detector state and the emitted events. -/
def detect (st : DetectorState) (result : PingResult) (stats : RollingStats) :
    DetectorState × List DeviationEvent :=
  match result.latency with
  | none =>
    let ec := createEvent .packet_loss 0 0 result.timestamp st.deviationCount
    ({ st with lastLatency := none, deviationCount := ec.2 }, [ec.1])
  | some latency =>
    let minSamples := 10
    if stats.sampleCount < minSamples then
      ({ st with lastLatency := some latency }, [])
    else
      let afterLatency :=
        match detectLatencySpike st.settings latency stats result.timestamp
            st.deviationCount with
        | some ec => (([ec.1] : List DeviationEvent), ec.2)
        | none => ([], st.deviationCount)
      let afterJitter :=
        match detectJitterSpike st.settings st.lastLatency latency stats
            result.timestamp afterLatency.2 with
        | some ec => (afterLatency.1 ++ [ec.1], ec.2)
        | none => afterLatency
      ({ st with lastLatency := some latency, deviationCount := afterJitter.2 },
       afterJitter.1)

/-- `updateSettings`: merge, leaving `lastLatency` and the counter alone.
A partial settings object is modelled as an update function on the record. -/
def updateSettings (st : DetectorState) (merge : SessionSettings → SessionSettings) :
    DetectorState :=
  { st with settings := merge st.settings }

/-- The rolling-window fields of the `PingService` class: the bounded list
of recent successful latencies, the consecutive-delta list for jitter, and
the last successful latency. -/
structure PingWindowState where
  latencies : List ℚ
  deltas : List ℚ
  lastLatency : Option ℚ
deriving Repr, DecidableEq

/-- `PingService.updateRollingWindow`. -/
def updateRollingWindow (windowSize : ℕ) (st : PingWindowState)
    (latency : Option ℚ) : PingWindowState :=
  match latency with
  | some l =>
    let latencies := st.latencies ++ [l]
    let deltas :=
      match st.lastLatency with
      | some last => st.deltas ++ [|l - last|]
      | none => st.deltas
    let latencies := if windowSize < latencies.length then latencies.tail else latencies
    let deltas := if windowSize < deltas.length then deltas.tail else deltas
    { latencies, deltas, lastLatency := some l }
  | none =>
    { st with lastLatency := none }

/-- `PingService.calculateStats`.  `sqrtFn` stands for `Math.sqrt`, which
is real-valued (the square root of a rational is in general irrational) and
is therefore an explicit parameter of the model; every other field is exact
rational arithmetic as in the source. -/
def calculateStats (sqrtFn : ℚ → ℚ) (st : PingWindowState) : RollingStats :=
  if st.latencies.length = 0 then
    { mean := 0, median := 0, stdDev := 0, min := 0, max := 0, p95 := 0, p99 := 0
      q1 := 0, q3 := 0, iqr := 0, jitter := 0, packetLossRate := 0, sampleCount := 0 }
  else
    let sorted := sortAsc st.latencies
    let n := sorted.length
    let sum := sorted.sum
    let mean := sum / n
    let min := sorted.getD 0 0
    let max := sorted.getD (n - 1) 0
    let median := medianOfSorted sorted
    let squaredDiffs : List ℚ := sorted.map (fun v => (v - mean) ^ 2)
    let avgSquaredDiff : ℚ := squaredDiffs.sum / n
    let stdDev := sqrtFn avgSquaredDiff
    let q1Index := pctIdx n (25 / 100)
    let q3Index := pctIdx n (75 / 100)
    let q1 := sorted.getD q1Index 0
    let q3 := sorted.getD q3Index 0
    let iqr := q3 - q1
    let p95Index := pctIdx n (95 / 100)
    let p99Index := pctIdx n (99 / 100)
    let p95 := sorted.getD (Min.min p95Index (n - 1)) 0
    let p99 := sorted.getD (Min.min p99Index (n - 1)) 0
    let jitter := if 0 < st.deltas.length then st.deltas.sum / st.deltas.length else 0
    { mean, median, stdDev, min, max, p95, p99, q1, q3, iqr, jitter
      packetLossRate := 0
      sampleCount := n }

/-- Folding a whole sample sequence through `updateRollingWindow`, starting
from the empty window (`start()` resets all three fields). -/
def loadWindow (windowSize : ℕ) (samples : List (Option ℚ)) : PingWindowState :=
  samples.foldl (updateRollingWindow windowSize)
    { latencies := [], deltas := [], lastLatency := none }

/-- Follows the spec's words (§4.3 quality grading): the five-tier ordered
rule cascade on the threshold percentages and P95, first matching rule
wins.  Used to check `assessQuality` against the spec. -/
def specGradeCascade (pct10ms pct20ms p95 : ℚ) : QualityGrade :=
  if pct10ms < 1 ∧ p95 < 10 then QualityGrade.A
  else if pct10ms < 3 ∧ pct20ms < 1 then QualityGrade.B
  else if pct10ms < 5 ∨ (pct20ms < 1 ∧ pct10ms < 10) then QualityGrade.C
  else if pct10ms < 10 ∨ pct20ms < 3 then QualityGrade.D
  else QualityGrade.F

/-- Follows the spec's words (§4.3 burst detection): walking the spike
samples in order from a previous spike sample, the number of spike samples
whose gap to the previous spike sample exceeds `BURST_GAP_MS` — each such
sample starts a new burst.  Used to check `computeBurstAnalysis`'s burst
count against the spec. -/
def specNewBurstCount : PingResult → List PingResult → ℕ
  | _, [] => 0
  | prev, s :: rest =>
    (if BURST_GAP_MS < s.timestamp - prev.timestamp then 1 else 0)
      + specNewBurstCount s rest

/-! ## Helper lemmas -/

theorem sortAsc_sorted (l : List ℚ) : (sortAsc l).Sorted (· ≤ ·) :=
  List.sorted_insertionSort _ l

theorem sortAsc_length (l : List ℚ) : (sortAsc l).length = l.length :=
  List.length_insertionSort _ l

theorem sorted_getD_mono {l : List ℚ} (hl : l.Sorted (· ≤ ·)) {i j : ℕ}
    (hij : i ≤ j) (hj : j < l.length) : l.getD i 0 ≤ l.getD j 0 := by
  have hi : i < l.length := lt_of_le_of_lt hij hj
  rw [List.getD_eq_getElem l 0 hi, List.getD_eq_getElem l 0 hj]
  have h := hl.rel_get_of_le (a := ⟨i, hi⟩) (b := ⟨j, hj⟩) hij
  simpa [List.get_eq_getElem] using h

theorem pctIdx_natCast (n a b : ℕ) : pctIdx n ((a : ℚ) / (b : ℚ)) = n * a / b := by
  unfold pctIdx
  rw [show (n : ℚ) * ((a : ℚ) / (b : ℚ)) = ((n * a : ℕ) : ℚ) / ((b : ℕ) : ℚ) by
    push_cast; ring]
  rw [Rat.floor_natCast_div_natCast, ← Int.natCast_div]
  exact Int.toNat_natCast _

theorem pctIdx_95 (n : ℕ) : pctIdx n (95 / 100) = n * 95 / 100 := by
  have h : ((95 : ℚ) / 100) = ((95 : ℕ) : ℚ) / ((100 : ℕ) : ℚ) := by norm_num
  rw [h, pctIdx_natCast]

theorem pctIdx_99 (n : ℕ) : pctIdx n (99 / 100) = n * 99 / 100 := by
  have h : ((99 : ℚ) / 100) = ((99 : ℕ) : ℚ) / ((100 : ℕ) : ℚ) := by norm_num
  rw [h, pctIdx_natCast]

theorem pctIdx_25 (n : ℕ) : pctIdx n (25 / 100) = n * 25 / 100 := by
  have h : ((25 : ℚ) / 100) = ((25 : ℕ) : ℚ) / ((100 : ℕ) : ℚ) := by norm_num
  rw [h, pctIdx_natCast]

theorem pctIdx_75 (n : ℕ) : pctIdx n (75 / 100) = n * 75 / 100 := by
  have h : ((75 : ℚ) / 100) = ((75 : ℕ) : ℚ) / ((100 : ℕ) : ℚ) := by norm_num
  rw [h, pctIdx_natCast]

theorem computeTimingMetrics_sampleCount (rs : List PingResult) :
    (computeTimingMetrics rs).sampleCount = rs.length := by
  unfold computeTimingMetrics
  split <;> rfl

/-! ## C1: determinism of `computeSessionAnalysis` -/

/-- C1 (counterexample): the source stamps the result with the wall clock
(`computedAt = Date.now()`), so two calls to analyze on the identical,
unchanged sample list — made at different clock readings — do **not** yield
bit-identical `SessionAnalysis` values. -/
theorem computeSessionAnalysis_clock_changes_result :
    computeSessionAnalysis 0 "s" [{ timestamp := 0, latency := some 1, seq := 1 }]
      ≠ computeSessionAnalysis 1 "s" [{ timestamp := 0, latency := some 1, seq := 1 }] := by
  decide

/-- C1 (amended): `computeSessionAnalysis` is a pure function of the clock
reading, the session id and the sample list, and the clock reading flows
only into the `computedAt` field — every other field of the two results of
analyzing the identical, unchanged sample list is bit-identical. -/
theorem computeSessionAnalysis_deterministic_up_to_clock
    (t₁ t₂ : ℤ) (sid : String) (rs : List PingResult) :
    computeSessionAnalysis t₁ sid rs
      = { computeSessionAnalysis t₂ sid rs with computedAt := t₁ } :=
  rfl

/-! ## C2: packet loss short-circuits detection -/

/-- C2: for every sample whose latency is absent, `detect` returns exactly
one event, of type `packet_loss` with `value = 0` and `threshold = 0`, and
clears `lastLatency` — in particular no `latency_spike` or `jitter` event
is emitted for that sample, regardless of the settings and of
`stats.sampleCount`. -/
theorem detect_loss_emits_single_packet_loss
    (st : DetectorState) (result : PingResult) (stats : RollingStats)
    (h : result.latency = none) :
    ((detect st result stats).2.map (fun e => (e.type, e.value, e.threshold))
        = [(DeviationType.packet_loss, 0, 0)])
      ∧ (detect st result stats).1.lastLatency = none := by
  obtain ⟨ts, lat, seq⟩ := result
  simp only at h
  subst h
  simp [detect, createEvent]

/-- C2 witness: a concrete loss sample under concrete settings. -/
theorem detect_loss_emits_single_packet_loss_witness :
    ((detect
        { settings := { target := "t", interval := 100, detectionMethod := "iqr"
                        iqrMultiplier := 3 / 2, zScoreThreshold := 2
                        manualLatencyThreshold := none, manualJitterThreshold := none
                        rollingWindowSize := 100 }
          lastLatency := some 5, deviationCount := 7 }
        { timestamp := 123, latency := none, seq := 9 }
        { mean := 5, median := 5, stdDev := 1, min := 4, max := 6, p95 := 6, p99 := 6
          q1 := 4, q3 := 6, iqr := 2, jitter := 1, packetLossRate := 0
          sampleCount := 50 }).2.map (fun e => (e.type, e.value, e.threshold))
        = [(DeviationType.packet_loss, 0, 0)])
      ∧ (detect
        { settings := { target := "t", interval := 100, detectionMethod := "iqr"
                        iqrMultiplier := 3 / 2, zScoreThreshold := 2
                        manualLatencyThreshold := none, manualJitterThreshold := none
                        rollingWindowSize := 100 }
          lastLatency := some 5, deviationCount := 7 }
        { timestamp := 123, latency := none, seq := 9 }
        { mean := 5, median := 5, stdDev := 1, min := 4, max := 6, p95 := 6, p99 := 6
          q1 := 4, q3 := 6, iqr := 2, jitter := 1, packetLossRate := 0
          sampleCount := 50 }).1.lastLatency = none :=
  detect_loss_emits_single_packet_loss _ _ _ rfl

/-- Any event produced by `detectJitterSpike` has type `jitter`. -/
theorem detectJitterSpike_type (s : SessionSettings) (ll : Option ℚ) (l : ℚ)
    (stats : RollingStats) (ts : ℤ) (ct : ℕ) (ec : DeviationEvent × ℕ)
    (h : detectJitterSpike s ll l stats ts ct = some ec) :
    ec.1.type = DeviationType.jitter := by
  cases ll with
  | none => simp [detectJitterSpike] at h
  | some last =>
    simp only [detectJitterSpike, createEvent] at h
    split at h
    · obtain rfl := Option.some.inj h; rfl
    · exact absurd h (by simp)

/-- With `detectionMethod = "iqr"`, `detectLatencySpike` fires exactly when
the latency exceeds `max(q3 + iqrMultiplier·iqr, median + 1)`, which is also
the reported threshold. -/
theorem detectLatencySpike_iqr (s : SessionSettings) (hm : s.detectionMethod = "iqr")
    (l : ℚ) (stats : RollingStats) (ts : ℤ) (ct : ℕ) :
    detectLatencySpike s l stats ts ct
      = if max (stats.q3 + s.iqrMultiplier * stats.iqr) (stats.median + 1) < l
        then some (createEvent DeviationType.latency_spike l
              (max (stats.q3 + s.iqrMultiplier * stats.iqr) (stats.median + 1)) ts ct)
        else none := by
  simp [detectLatencySpike, hm]

/-! ## C3: IQR detection threshold -/

/-- C3: with `detectionMethod = "iqr"` and a successful sample after
warm-up (`sampleCount ≥ 10`), `detect` emits a `latency_spike` event iff
`latency > max(q3 + iqrMultiplier·iqr, median + 1)`, and any emitted
`latency_spike` event reports exactly that threshold; below warm-up no
detection is attempted but `lastLatency` is still updated. -/
theorem detect_iqr_characterization
    (st : DetectorState) (result : PingResult) (stats : RollingStats) (l : ℚ)
    (hm : st.settings.detectionMethod = "iqr") (hl : result.latency = some l) :
    (10 ≤ stats.sampleCount →
      ((∃ e ∈ (detect st result stats).2, e.type = DeviationType.latency_spike)
          ↔ max (stats.q3 + st.settings.iqrMultiplier * stats.iqr) (stats.median + 1) < l)
        ∧ ∀ e ∈ (detect st result stats).2, e.type = DeviationType.latency_spike →
            e.threshold
              = max (stats.q3 + st.settings.iqrMultiplier * stats.iqr) (stats.median + 1))
      ∧ (stats.sampleCount < 10 →
          (detect st result stats).2 = []
            ∧ (detect st result stats).1.lastLatency = some l) := by
  obtain ⟨ts, lat, seq⟩ := result
  simp only at hl
  subst hl
  refine ⟨fun h10 => ?_, fun hlt => ?_⟩
  · have hn : ¬ stats.sampleCount < 10 := by omega
    by_cases hT : max (stats.q3 + st.settings.iqrMultiplier * stats.iqr) (stats.median + 1) < l
    · cases hJ : detectJitterSpike st.settings st.lastLatency l stats ts
        (st.deviationCount + 1) with
      | none =>
        simp [detect, hn, detectLatencySpike_iqr st.settings hm, hT, hJ, createEvent]
      | some ec =>
        have htype := detectJitterSpike_type _ _ _ _ _ _ _ hJ
        simp only [detect, hn, if_false, detectLatencySpike_iqr st.settings hm, hT, if_true,
          ite_true, ite_false, createEvent, hJ]
        simp [htype, hT]
    · cases hJ : detectJitterSpike st.settings st.lastLatency l stats ts st.deviationCount with
      | none =>
        simp [detect, hn, detectLatencySpike_iqr st.settings hm, hT, hJ]
      | some ec =>
        have htype := detectJitterSpike_type _ _ _ _ _ _ _ hJ
        simp only [detect, hn, if_false, detectLatencySpike_iqr st.settings hm, hT,
          ite_false, createEvent, hJ]
        simp [htype, hT]
  · simp [detect, hlt]

/-- C3 witness: concrete IQR settings and stats after warm-up; the spike
fires at latency 20 against threshold `max(6 + 1.5·2, 5 + 1) = 9`. -/
theorem detect_iqr_characterization_witness :
    ∃ e ∈ (detect
      { settings := { target := "t", interval := 100, detectionMethod := "iqr"
                      iqrMultiplier := 3 / 2, zScoreThreshold := 2
                      manualLatencyThreshold := none, manualJitterThreshold := none
                      rollingWindowSize := 100 }
        lastLatency := some 5, deviationCount := 7 }
      { timestamp := 123, latency := some 20, seq := 9 }
      { mean := 5, median := 5, stdDev := 1, min := 4, max := 6, p95 := 6, p99 := 6
        q1 := 6, q3 := 6, iqr := 2, jitter := 1, packetLossRate := 0
        sampleCount := 50 }).2, e.type = DeviationType.latency_spike :=
  ((detect_iqr_characterization _ _ _ 20 rfl rfl).1 (by norm_num)).1.mpr (by norm_num)

/-! ## C4: quality grade cascade -/

/-- C4: `assessQuality` grades by the five-rule first-match cascade over
`pct10ms`, `pct20ms` and `latencyP95` (checked against the spec-side
`specGradeCascade`); with zero total samples the cascade is bypassed and
the grade is forced to `F` with the fixed no-data summary; the claim's two
concrete instances (`pct10ms = 0.5, p95 = 8 → A` and
`pct10ms = 2, pct20ms = 0.5 → B`) evaluate as stated.  At the session
level, an empty sample list grades `F` with the no-data summary. -/
theorem assessQuality_cascade
    (ls : LatencyStats) (ths : List ThresholdCount) (n : ℕ) :
    (n ≠ 0 → (assessQuality ls ths n).qualityGrade
        = specGradeCascade (pctAt ths 10) (pctAt ths 20) ls.latencyP95)
      ∧ (n = 0 → assessQuality ls ths n
          = { qualityGrade := QualityGrade.F
              qualitySummary := "No data available for analysis." })
      ∧ (assessQuality { latencyMin := 1, latencyMean := 2, latencyMedian := 3,
                          latencyP95 := 8, latencyP99 := 9, latencyMax := 9,
                          latencyStdDevSq := 0 }
          [{ thresholdMs := 10, count := 1, percentage := 1 / 2 },
           { thresholdMs := 20, count := 0, percentage := 0 },
           { thresholdMs := 50, count := 0, percentage := 0 },
           { thresholdMs := 100, count := 0, percentage := 0 }] 200).qualityGrade
          = QualityGrade.A
      ∧ (assessQuality { latencyMin := 1, latencyMean := 2, latencyMedian := 3,
                          latencyP95 := 12, latencyP99 := 15, latencyMax := 15,
                          latencyStdDevSq := 0 }
          [{ thresholdMs := 10, count := 4, percentage := 2 },
           { thresholdMs := 20, count := 1, percentage := 1 / 2 },
           { thresholdMs := 50, count := 0, percentage := 0 },
           { thresholdMs := 100, count := 0, percentage := 0 }] 200).qualityGrade
          = QualityGrade.B
      ∧ ∀ t sid, (computeSessionAnalysis t sid []).qualityGrade = QualityGrade.F
          ∧ (computeSessionAnalysis t sid []).qualitySummary
              = "No data available for analysis." := by
  refine ⟨fun hn => ?_, fun hn => ?_, by norm_num [assessQuality, pctAt],
    by norm_num [assessQuality, pctAt], fun t sid => ⟨rfl, rfl⟩⟩
  · simp only [assessQuality, specGradeCascade, hn, if_false]
    split_ifs <;> rfl
  · simp [assessQuality, hn]

/-- C4 witness: the zero-sample branch at a concrete input. -/
theorem assessQuality_cascade_witness :
    (assessQuality { latencyMin := 0, latencyMean := 0, latencyMedian := 0,
                     latencyP95 := 0, latencyP99 := 0, latencyMax := 0,
                     latencyStdDevSq := 0 }
        [] 0)
      = { qualityGrade := QualityGrade.F
          qualitySummary := "No data available for analysis." } :=
  (assessQuality_cascade _ [] 0).2.1 rfl

theorem sortByTimestamp_length (rs : List PingResult) :
    (sortByTimestamp rs).length = rs.length :=
  List.length_insertionSort _ _

/-- For an in-range index, the JavaScript `||` fallback fires exactly when
the selected element is 0. -/
theorem jsIndexOr_of_lt {l : List ℚ} {i : ℕ} (h : i < l.length) (f : ℚ) :
    jsIndexOr l i f = if l.getD i 0 = 0 then f else l.getD i 0 := by
  unfold jsIndexOr
  rw [List.get?_eq_get h]
  simp [List.getD, List.getElem?_eq_getElem h, List.get_eq_getElem]

/-! ## C5: sampling-interval median -/

/-- C5 (counterexample): for the session with timestamps 0, 1000, 3000 the
inter-sample intervals are [1, 2] (n = 2, even), and the code returns their
mean 1.5 — not the sorted interval at index `floor(n/2) = 1`, which is 2.
The nearest-rank-floor rule of the claim does not hold for even `n`. -/
theorem samplingIntervalMedian_interpolates :
    (computeTimingMetrics (sortByTimestamp
        [{ timestamp := 0, latency := some 1, seq := 1 },
         { timestamp := 1000, latency := some 1, seq := 2 },
         { timestamp := 3000, latency := some 1, seq := 3 }])).samplingIntervalMedian
      ≠ (sortAsc (interSampleIntervals (sortByTimestamp
            [{ timestamp := 0, latency := some 1, seq := 1 },
             { timestamp := 1000, latency := some 1, seq := 2 },
             { timestamp := 3000, latency := some 1, seq := 3 }]))).getD
          ((sortAsc (interSampleIntervals (sortByTimestamp
            [{ timestamp := 0, latency := some 1, seq := 1 },
             { timestamp := 1000, latency := some 1, seq := 2 },
             { timestamp := 3000, latency := some 1, seq := 3 }]))).length / 2) 0 := by
  norm_num [computeTimingMetrics, interSampleIntervals, sortByTimestamp, sortAsc,
    medianOfSorted, jsIndexOr, List.insertionSort, List.orderedInsert]

/-- C5 (amended): for every session with at least 2 samples,
`samplingIntervalMedian` is the even/odd median of the sorted inter-sample
intervals — the mean of the two middle intervals when their number `n` is
even, and the sorted interval at index `floor(n/2)` (nearest rank) only
when `n` is odd. -/
theorem samplingIntervalMedian_even_odd (t : ℤ) (sid : String)
    (rs : List PingResult) (h : 2 ≤ rs.length) :
    (computeSessionAnalysis t sid rs).samplingIntervalMedian
      = (let sInt := sortAsc (interSampleIntervals (sortByTimestamp rs))
         let n := sInt.length
         if n % 2 = 0 then (sInt.getD (n / 2 - 1) 0 + sInt.getD (n / 2) 0) / 2
         else sInt.getD (n / 2) 0) := by
  have hlen : ¬ (sortByTimestamp rs).length < 2 := by
    rw [sortByTimestamp_length]; omega
  simp [computeSessionAnalysis, computeTimingMetrics, hlen, medianOfSorted]

/-- C5 witness: the three-sample session above, with even `n = 2`, has
median 1.5 (the interpolated value). -/
theorem samplingIntervalMedian_even_odd_witness :
    (computeSessionAnalysis 0 "s"
        [{ timestamp := 0, latency := some 1, seq := 1 },
         { timestamp := 1000, latency := some 1, seq := 2 },
         { timestamp := 3000, latency := some 1, seq := 3 }]).samplingIntervalMedian
      = 3 / 2 := by
  rw [samplingIntervalMedian_even_odd 0 "s" _ (by norm_num)]
  norm_num [sortByTimestamp, sortAsc, interSampleIntervals,
    List.insertionSort, List.orderedInsert]

/-! ## C6: latency P95/P99 selection and fallback -/

/-- C6 (counterexample): for 21 latencies — twenty 0 ms and one 5 ms —
`floor(21·0.95) = 19` selects a legitimate 0, but the source's
`sorted[i] || sorted[n-1]` treats 0 as falsy and falls back to the maximum
5, so `latencyP95` does **not** equal the value at the selected index. -/
theorem latencyP95_fallback_on_zero :
    (computeLatencyStats (List.replicate 20 (0 : ℚ) ++ [5])).latencyP95
      ≠ (sortAsc (List.replicate 20 (0 : ℚ) ++ [5])).getD
          (pctIdx (List.replicate 20 (0 : ℚ) ++ [5]).length (95 / 100)) 0 := by
  norm_num [computeLatencyStats, sortAsc, jsIndexOr, pctIdx, Int.toNat_ofNat,
    List.replicate, List.insertionSort, List.orderedInsert]
  decide

/-- C6 (amended): for every non-empty latency list, the selection index
`floor(n·0.95)` (resp. `floor(n·0.99)`) is always in range — it never
underflows — and `latencyP95`/`latencyP99` equal the value at that sorted
index **unless** that value is 0 (JavaScript falsiness), in which case they
fall back to the maximum `sorted[n-1]`. -/
theorem latency_p95_p99_selection (l : List ℚ) (h : l ≠ []) :
    pctIdx l.length (95 / 100) < l.length
      ∧ pctIdx l.length (99 / 100) < l.length
      ∧ (computeLatencyStats l).latencyP95
          = (if (sortAsc l).getD (pctIdx l.length (95 / 100)) 0 = 0
             then (sortAsc l).getD (l.length - 1) 0
             else (sortAsc l).getD (pctIdx l.length (95 / 100)) 0)
      ∧ (computeLatencyStats l).latencyP99
          = (if (sortAsc l).getD (pctIdx l.length (99 / 100)) 0 = 0
             then (sortAsc l).getD (l.length - 1) 0
             else (sortAsc l).getD (pctIdx l.length (99 / 100)) 0) := by
  have hne : l.length ≠ 0 := by
    simpa [List.length_eq_zero] using h
  have h95 : pctIdx l.length (95 / 100) < l.length := by
    rw [pctIdx_95]; omega
  have h99 : pctIdx l.length (99 / 100) < l.length := by
    rw [pctIdx_99]; omega
  have h95s : pctIdx l.length (95 / 100) < (sortAsc l).length := by
    rw [sortAsc_length]; exact h95
  have h99s : pctIdx l.length (99 / 100) < (sortAsc l).length := by
    rw [sortAsc_length]; exact h99
  refine ⟨h95, h99, ?_, ?_⟩
  · simp only [computeLatencyStats, hne, if_false, sortAsc_length,
      jsIndexOr_of_lt h95s]
  · simp only [computeLatencyStats, hne, if_false, sortAsc_length,
      jsIndexOr_of_lt h99s]

/-- C6 witness: the 21-element list above; the selected value is 0, so both
tail percentiles fall back to the maximum 5. -/
theorem latency_p95_p99_selection_witness :
    (computeLatencyStats (List.replicate 20 (0 : ℚ) ++ [5])).latencyP95 = 5 := by
  rw [(latency_p95_p99_selection (List.replicate 20 (0 : ℚ) ++ [5])
    (by norm_num)).2.2.1]
  norm_num [sortAsc, pctIdx, Int.toNat_ofNat, List.replicate,
    List.insertionSort, List.orderedInsert]
  decide

/-- The grouping loop produces one group plus one more for every spike
sample whose gap to the previous spike sample exceeds the burst gap. -/
theorem burstGroupsAux_length (rest : List PingResult) :
    ∀ (prev : PingResult) (cur : List PingResult),
      (burstGroupsAux prev cur rest).length = 1 + specNewBurstCount prev rest := by
  induction rest with
  | nil => intro prev cur; simp [burstGroupsAux, specNewBurstCount]
  | cons s rest ih =>
    intro prev cur
    simp only [burstGroupsAux, specNewBurstCount]
    by_cases hg : s.timestamp - prev.timestamp ≤ BURST_GAP_MS
    · rw [if_pos hg, if_neg (not_lt.mpr hg), ih]
      omega
    · rw [if_neg hg, if_pos (lt_of_not_le hg)]
      simp only [List.length_cons, ih]
      omega

/-! ## C7: burst clustering -/

/-- C7: the burst count is exactly one plus the number of spike samples
whose gap to the previous spike sample exceeds 5000 ms (a new burst starts
exactly at those samples, the current burst is extended otherwise); spike
samples at t = 0 and t = 4000 form one burst of size 2, and adding a third
spike sample at t = 10000 yields a burst count of 2. -/
theorem computeBurstAnalysis_burst_count (sortedResults : List PingResult) :
    (∀ (h : sortedResults.filter isSpikeSample ≠ []),
        (computeBurstAnalysis sortedResults).burstCount
          = 1 + specNewBurstCount ((sortedResults.filter isSpikeSample).head h)
              (sortedResults.filter isSpikeSample).tail)
      ∧ (computeBurstAnalysis
            [{ timestamp := 0, latency := some 20, seq := 0 },
             { timestamp := 4000, latency := some 20, seq := 1 }]).burstCount = 1
      ∧ ((computeBurstAnalysis
            [{ timestamp := 0, latency := some 20, seq := 0 },
             { timestamp := 4000, latency := some 20, seq := 1 }]).bursts.map
          (fun b => b.sampleCount)) = [2]
      ∧ (computeBurstAnalysis
            [{ timestamp := 0, latency := some 20, seq := 0 },
             { timestamp := 4000, latency := some 20, seq := 1 },
             { timestamp := 10000, latency := some 20, seq := 2 }]).burstCount = 2 := by
  refine ⟨fun h => ?_, ?_, ?_, ?_⟩
  · obtain ⟨s, rest, hsr⟩ := List.exists_cons_of_ne_nil h
    have hlen : ¬ (sortedResults.filter isSpikeSample).length = 0 := by
      simpa [List.length_eq_zero] using h
    simp only [computeBurstAnalysis, hlen, if_false, hsr, List.head_cons, List.tail_cons,
      List.length_map, List.enum_length]
    rw [burstGroups, burstGroupsAux_length]
    simp
  · norm_num [computeBurstAnalysis, isSpikeSample, SPIKE_THRESHOLD_MS, BURST_GAP_MS,
      burstGroups, burstGroupsAux, List.filter]
  · norm_num [computeBurstAnalysis, isSpikeSample, SPIKE_THRESHOLD_MS, BURST_GAP_MS,
      burstGroups, burstGroupsAux, createBurst, List.filter]
  · norm_num [computeBurstAnalysis, isSpikeSample, SPIKE_THRESHOLD_MS, BURST_GAP_MS,
      burstGroups, burstGroupsAux, List.filter]

/-- C7 witness: two spike samples 10 s apart form two bursts, matching the
spec-side new-burst count. -/
theorem computeBurstAnalysis_burst_count_witness :
    (computeBurstAnalysis
        [{ timestamp := 0, latency := some 20, seq := 0 },
         { timestamp := 10000, latency := some 20, seq := 1 }]).burstCount
      = 1 + specNewBurstCount { timestamp := 0, latency := some 20, seq := 0 }
          [{ timestamp := 10000, latency := some 20, seq := 1 }] := by
  have hfil : ([{ timestamp := 0, latency := some 20, seq := 0 },
      { timestamp := 10000, latency := some 20, seq := 1 }] : List PingResult).filter
        isSpikeSample
      = [{ timestamp := 0, latency := some 20, seq := 0 },
         { timestamp := 10000, latency := some 20, seq := 1 }] := by
    norm_num [isSpikeSample, SPIKE_THRESHOLD_MS, List.filter]
  have h := (computeBurstAnalysis_burst_count
    [{ timestamp := 0, latency := some 20, seq := 0 },
     { timestamp := 10000, latency := some 20, seq := 1 }]).1
  rw [hfil] at h
  simpa using h (by simp)

/-- Quantile chain on a sorted non-empty list: the nearest-rank q1/median/q3
and min/p95/p99/max selections are monotone in the selection index. -/
theorem sorted_quantile_chain (sorted : List ℚ) (hs : sorted.Sorted (· ≤ ·))
    (hne : sorted.length ≠ 0) :
    sorted.getD (pctIdx sorted.length (25 / 100)) 0 ≤ medianOfSorted sorted
      ∧ medianOfSorted sorted ≤ sorted.getD (pctIdx sorted.length (75 / 100)) 0
      ∧ sorted.getD 0 0
          ≤ sorted.getD (Min.min (pctIdx sorted.length (95 / 100)) (sorted.length - 1)) 0
      ∧ sorted.getD (Min.min (pctIdx sorted.length (95 / 100)) (sorted.length - 1)) 0
          ≤ sorted.getD (Min.min (pctIdx sorted.length (99 / 100)) (sorted.length - 1)) 0
      ∧ sorted.getD (Min.min (pctIdx sorted.length (99 / 100)) (sorted.length - 1)) 0
          ≤ sorted.getD (sorted.length - 1) 0 := by
  rw [pctIdx_25, pctIdx_75, pctIdx_95, pctIdx_99]
  set n := sorted.length with hn
  have hlast : n - 1 < n := by omega
  refine ⟨?_, ?_,
    sorted_getD_mono hs (by omega) (by omega),
    sorted_getD_mono hs (by omega) (by omega),
    sorted_getD_mono hs (by omega) (by omega)⟩
  · simp only [medianOfSorted, ← hn]
    by_cases hpar : n % 2 = 0
    · rw [if_pos hpar]
      have ha := sorted_getD_mono (l := sorted) hs
        (i := n * 25 / 100) (j := n / 2 - 1) (by omega) (by omega)
      have hb := sorted_getD_mono (l := sorted) hs
        (i := n * 25 / 100) (j := n / 2) (by omega) (by omega)
      linarith
    · rw [if_neg hpar]
      exact sorted_getD_mono hs (by omega) (by omega)
  · simp only [medianOfSorted, ← hn]
    by_cases hpar : n % 2 = 0
    · rw [if_pos hpar]
      have ha := sorted_getD_mono (l := sorted) hs
        (i := n / 2 - 1) (j := n * 75 / 100) (by omega) (by omega)
      have hb := sorted_getD_mono (l := sorted) hs
        (i := n / 2) (j := n * 75 / 100) (by omega) (by omega)
      linarith
    · rw [if_neg hpar]
      exact sorted_getD_mono hs (by omega) (by omega)

/-! ## C8: rolling-stats ordering invariants -/

/-- C8: for every sequence of samples loaded into the rolling window (any
window size, any `Math.sqrt` realization), the stats returned by
`calculateStats` satisfy `q1 ≤ median ≤ q3` and `min ≤ p95 ≤ p99 ≤ max`
whenever `sampleCount ≥ 1`. -/
theorem rollingWindow_stats_ordered (sqrtFn : ℚ → ℚ) (w : ℕ)
    (samples : List (Option ℚ))
    (h : 1 ≤ (calculateStats sqrtFn (loadWindow w samples)).sampleCount) :
    (calculateStats sqrtFn (loadWindow w samples)).q1
        ≤ (calculateStats sqrtFn (loadWindow w samples)).median
      ∧ (calculateStats sqrtFn (loadWindow w samples)).median
          ≤ (calculateStats sqrtFn (loadWindow w samples)).q3
      ∧ (calculateStats sqrtFn (loadWindow w samples)).min
          ≤ (calculateStats sqrtFn (loadWindow w samples)).p95
      ∧ (calculateStats sqrtFn (loadWindow w samples)).p95
          ≤ (calculateStats sqrtFn (loadWindow w samples)).p99
      ∧ (calculateStats sqrtFn (loadWindow w samples)).p99
          ≤ (calculateStats sqrtFn (loadWindow w samples)).max := by
  set st := loadWindow w samples with hst
  have hne : ¬ st.latencies.length = 0 := by
    intro h0
    rw [calculateStats, if_pos h0] at h
    exact absurd h (by norm_num)
  have hchain := sorted_quantile_chain (sortAsc st.latencies)
    (sortAsc_sorted st.latencies) (by rw [sortAsc_length]; exact hne)
  simp only [calculateStats, hne, if_false]
  exact hchain

/-- C8 witness: the spec's example window [10, 20, 30, 40, 50] (any sqrt
realization is irrelevant to the ordered fields; the identity is used). -/
theorem rollingWindow_stats_ordered_witness :
    1 ≤ (calculateStats (fun x => x)
          (loadWindow 100 [some 10, some 20, some 30, some 40, some 50])).sampleCount
      ∧ (calculateStats (fun x => x)
            (loadWindow 100 [some 10, some 20, some 30, some 40, some 50])).q1
          ≤ (calculateStats (fun x => x)
              (loadWindow 100 [some 10, some 20, some 30, some 40, some 50])).median :=
  ⟨by norm_num [calculateStats, loadWindow, updateRollingWindow, sortAsc,
      List.insertionSort, List.orderedInsert],
   (rollingWindow_stats_ordered (fun x => x) 100
      [some 10, some 20, some 30, some 40, some 50]
      (by norm_num [calculateStats, loadWindow, updateRollingWindow, sortAsc,
        List.insertionSort, List.orderedInsert])).1⟩

/-- With an unrecognized detection method, or `manual` with no threshold
set, the latency-spike check returns no event (the `switch` has no default
branch and the `manual` branch requires a non-null threshold). -/
theorem detectLatencySpike_invalid_config (s : SessionSettings)
    (h : s.detectionMethod ∉ (["iqr", "zscore", "manual"] : List String)
         ∨ (s.detectionMethod = "manual" ∧ s.manualLatencyThreshold = none))
    (l : ℚ) (stats : RollingStats) (ts : ℤ) (ct : ℕ) :
    detectLatencySpike s l stats ts ct = none := by
  rcases h with h | ⟨hm, hthr⟩
  · have h1 : ¬ s.detectionMethod = "iqr" := fun hc => h (by simp [hc])
    have h2 : ¬ s.detectionMethod = "zscore" := fun hc => h (by simp [hc])
    have h3 : ¬ s.detectionMethod = "manual" := fun hc => h (by simp [hc])
    unfold detectLatencySpike
    rw [if_neg h1, if_neg h2, if_neg h3]
  · unfold detectLatencySpike
    rw [hm, hthr, if_neg (by decide), if_neg (by decide), if_pos rfl]

/-! ## C9: malformed configuration degrades to no detection -/

/-- C9: when the detection method is not one of `iqr`/`zscore`/`manual`, or
is `manual` with no threshold set, `detect` (a total function — it cannot
throw) emits no `latency_spike` event, and on a successful warm sample the
emitted events are exactly those of the unchanged jitter check (the loss
check is unaffected as well, see the loss theorem). -/
theorem detect_invalid_config_no_spike
    (st : DetectorState) (result : PingResult) (stats : RollingStats)
    (h : st.settings.detectionMethod ∉ (["iqr", "zscore", "manual"] : List String)
         ∨ (st.settings.detectionMethod = "manual"
             ∧ st.settings.manualLatencyThreshold = none)) :
    (∀ e ∈ (detect st result stats).2, e.type ≠ DeviationType.latency_spike)
      ∧ (∀ l, result.latency = some l → 10 ≤ stats.sampleCount →
          (detect st result stats).2
            = (match detectJitterSpike st.settings st.lastLatency l stats
                  result.timestamp st.deviationCount with
               | some ec => [ec.1]
               | none => [])) := by
  obtain ⟨ts, lat, seq⟩ := result
  have hLS := detectLatencySpike_invalid_config st.settings h
  constructor
  · intro e he
    cases lat with
    | none =>
      simp only [detect, createEvent, List.mem_singleton] at he
      subst he
      simp
    | some l =>
      by_cases h10 : stats.sampleCount < 10
      · simp [detect, h10] at he
      · cases hJ : detectJitterSpike st.settings st.lastLatency l stats ts
          st.deviationCount with
        | none => simp [detect, h10, hLS, hJ] at he
        | some ec =>
          have htype := detectJitterSpike_type _ _ _ _ _ _ _ hJ
          simp only [detect, h10, if_false, hLS, hJ, List.nil_append,
            List.mem_singleton] at he
          subst he
          simp [htype]
  · intro l hl h10
    simp only at hl
    subst hl
    have hn : ¬ stats.sampleCount < 10 := by omega
    cases hJ : detectJitterSpike st.settings st.lastLatency l stats ts
        st.deviationCount with
    | none => simp [detect, hn, hLS, hJ]
    | some ec => simp [detect, hn, hLS, hJ]

/-- C9 witness: method "bogus", warm stats, no previous latency — no event
at all is emitted. -/
theorem detect_invalid_config_no_spike_witness :
    (detect
        { settings := { target := "t", interval := 100, detectionMethod := "bogus"
                        iqrMultiplier := 3 / 2, zScoreThreshold := 2
                        manualLatencyThreshold := none, manualJitterThreshold := none
                        rollingWindowSize := 100 }
          lastLatency := none, deviationCount := 0 }
        { timestamp := 5, latency := some 7, seq := 1 }
        { mean := 5, median := 5, stdDev := 1, min := 4, max := 6, p95 := 6, p99 := 6
          q1 := 4, q3 := 6, iqr := 2, jitter := 1, packetLossRate := 0
          sampleCount := 50 }).2 = [] := by
  have h := (detect_invalid_config_no_spike
    { settings := { target := "t", interval := 100, detectionMethod := "bogus"
                    iqrMultiplier := 3 / 2, zScoreThreshold := 2
                    manualLatencyThreshold := none, manualJitterThreshold := none
                    rollingWindowSize := 100 }
      lastLatency := none, deviationCount := 0 }
    { timestamp := 5, latency := some 7, seq := 1 }
    { mean := 5, median := 5, stdDev := 1, min := 4, max := 6, p95 := 6, p99 := 6
      q1 := 4, q3 := 6, iqr := 2, jitter := 1, packetLossRate := 0
      sampleCount := 50 }
    (Or.inl (by decide))).2 7 rfl (by norm_num)
  simpa [detectJitterSpike] using h

/-! ## C10: a 100%-loss session grades A -/

/-- C10: for every non-empty sample list in which every latency is absent,
the analyzer returns `qualityGrade = A`: all threshold percentages and
`latencyP95` fall back to 0, which satisfies the top cascade rule, and the
zero-sample `F` short-circuit does not apply because the total sample count
(losses included) is non-zero. -/
theorem all_loss_session_grades_A (t : ℤ) (sid : String) (rs : List PingResult)
    (h1 : rs ≠ []) (h2 : ∀ p ∈ rs, p.latency = none) :
    (computeSessionAnalysis t sid rs).qualityGrade = QualityGrade.A
      ∧ (computeSessionAnalysis t sid rs).latencyP95 = 0
      ∧ ∀ tc ∈ (computeSessionAnalysis t sid rs).thresholds, tc.percentage = 0 := by
  have hlen : rs.length ≠ 0 := by
    simpa [List.length_eq_zero] using h1
  have hfil : rs.filter (fun p => p.latency ≠ none) = [] := by
    rw [List.filter_eq_nil_iff]
    intro a ha
    simp [h2 a ha]
  simp only [computeSessionAnalysis, hfil]
  simp [computeLatencyStats, computeThresholdCounts, THRESHOLD_LEVELS, assessQuality,
    pctAt, computeTimingMetrics_sampleCount, sortByTimestamp_length, hlen, List.find?]

/-- C10 witness: a single lost sample yields grade A. -/
theorem all_loss_session_grades_A_witness :
    (computeSessionAnalysis 0 "s"
        [{ timestamp := 0, latency := none, seq := 1 }]).qualityGrade
      = QualityGrade.A :=
  (all_loss_session_grades_A 0 "s" [{ timestamp := 0, latency := none, seq := 1 }]
    (by simp) (by simp)).1
